import Mathlib

/-!
Shallow embedding of the ksched-mirror flow scheduler core
(scheduling/flow/flowscheduler/scheduler.go) together with the registry
lookup helpers (pkg/types association maps). Machine integers are modelled
as Nat; identifier conversion helpers (MustJobIDFromString and friends) are
modelled as the identity on numeric ids. The registries are modelled as
association lists; their locks serialise each single map operation, so the
sequential model is faithful for the sequential scheduler code. Pointer
mutation of a shared descriptor is modelled as an update of the registry
entry that owns it.
-/

namespace Ksched

/-- Task identifiers (Go: types.TaskID, uint64). -/
abbrev TaskID := Nat

/-- Resource identifiers (Go: types.ResourceID, uint64). -/
abbrev ResourceID := Nat

/-- Job identifiers (Go: types.JobID, uint64). -/
abbrev JobID := Nat

/-- Modelled from the spec: the proto job state enum (the proto definitions
are not under src/). The spec names Pending, Running, Completed among the
states; extra states are represented by the two remaining constructors. -/
inductive JobState where
  | pending
  | running
  | completed
  | failed
  deriving DecidableEq

/-- Job descriptor: identity plus lifecycle state (proto JobDescriptor;
only the fields the scheduler core touches are modelled). -/
structure JobDescriptor where
  uuid : JobID
  state : JobState
  deriving DecidableEq

/-- Task descriptor: identity plus owning job (proto TaskDescriptor;
td.JobID is a string UUID in Go, converted with MustJobIDFromString, which
is modelled away by using numeric ids directly). -/
structure TaskDescriptor where
  uid : TaskID
  jobID : JobID
  deriving DecidableEq

/-- Modelled from the spec: the proto resource type enum (the proto
definitions are not under src/). Only the PU case is distinguished by the
scheduler code. -/
inductive ResourceType where
  | pu
  | machine
  | coordinator
  deriving DecidableEq

/-- Resource descriptor (proto ResourceDescriptor): type, schedulable flag,
and the running tasks currently bound to the resource, which the spec calls
the resource registry actual running-task state. -/
structure ResourceDescriptor where
  uid : ResourceID
  type : ResourceType
  schedulable : Bool
  currentRunningTasks : List TaskID
  deriving DecidableEq

/-- Registry value wrapping a resource descriptor
(pkg/types/resourcestatus; rs.Descriptor() returns the wrapped value). -/
structure ResourceStatus where
  descriptor : ResourceDescriptor
  deriving DecidableEq

/-- Topology node (proto ResourceTopologyNodeDescriptor): a resource
descriptor, a parent id (none models the empty ParentId string of a root)
and child links. -/
inductive ResourceTopologyNodeDescriptor where
  | mk (resourceDesc : ResourceDescriptor) (parentId : Option ResourceID)
      (children : List ResourceTopologyNodeDescriptor)

/-- Resource descriptor of a topology node. -/
def ResourceTopologyNodeDescriptor.resourceDesc :
    ResourceTopologyNodeDescriptor → ResourceDescriptor
  | .mk rd _ _ => rd

/-- Parent id of a topology node (none for a root). -/
def ResourceTopologyNodeDescriptor.parentId :
    ResourceTopologyNodeDescriptor → Option ResourceID
  | .mk _ p _ => p

/-- Children of a topology node. -/
def ResourceTopologyNodeDescriptor.children :
    ResourceTopologyNodeDescriptor → List ResourceTopologyNodeDescriptor
  | .mk _ _ cs => cs

-- Boolean equality on topology nodes, standing in for the pointer
-- identity that keys the Go resourceRoots map: re-registering the very
-- same root object is modelled as inserting an equal value.
deriving instance BEq for ResourceTopologyNodeDescriptor

/-- Modelled from the spec and the Go switch in ApplySchedulingDeltas: the
proto SchedulingDelta type enum is an open integer enum (the proto
definitions are not under src/), so delta types are modelled as Nat with
one named constant per recognised value; any other Nat is an unrecognised
type that reaches the default branch of the switch. NOOP value. -/
def SchedulingDelta_NOOP : Nat := 0

/-- PLACE delta type value. -/
def SchedulingDelta_PLACE : Nat := 1

/-- PREEMPT delta type value. -/
def SchedulingDelta_PREEMPT : Nat := 2

/-- MIGRATE delta type value. -/
def SchedulingDelta_MIGRATE : Nat := 3

/-- Scheduling delta (proto SchedulingDelta): an instruction record with a
type, a task id and a resource id. The Go ResourceId string field and its
MustResourceIDFromString conversion are modelled as a numeric id. -/
structure SchedulingDelta where
  type : Nat
  taskId : TaskID
  resourceId : ResourceID
  deriving DecidableEq

/-- Ways in which the scheduler code aborts the process. The first three
are the explicit guards of scheduler.go (the empty-string panic on a nil
task, the empty-string panic on a nil resource, the log.Fatalf on an
unknown delta type), panicJobMustExist is the log.Panicf guard of
HandleJobCompletion, and nilJobDereference is the Go runtime panic raised
when the unguarded jd.State read in the PLACE branch dereferences the nil
result of the job lookup. -/
inductive Crash where
  | panicNilTask
  | panicNilResource
  | fatalUnknownDeltaType
  | nilJobDereference
  | panicJobMustExist
  deriving DecidableEq

/-- Calls made to the external Graph Manager collaborator, recorded as a
trace where the order of external effects matters to a claim. -/
inductive GMCall where
  | jobCompleted (jobID : JobID)
  deriving DecidableEq

/-- Association-list lookup, embedding the registries FindPtrOrNull of
pkg/types: the value for the key, or none when the key is absent (the Go
map returns nil for missing keys). The per-call RWMutex is elided: each
call is a single atomic map operation and the scheduler core is
sequential. -/
def FindPtrOrNull {β : Type} : List (Nat × β) → Nat → Option β
  | [], _ => none
  | p :: rest, k => if p.1 = k then some p.2 else FindPtrOrNull rest k

/-- Association-list update of the entry for a key that is present,
modelling a Go write through a pointer previously obtained from the
registry (the registry and the scheduler alias the same record). -/
def mapUpdate {β : Type} (l : List (Nat × β)) (k : Nat) (v : β) :
    List (Nat × β) :=
  l.map (fun p => if p.1 = k then (k, v) else p)

/-- Association-list key removal, modelling the Go builtin delete. -/
def mapErase {β : Type} (l : List (Nat × β)) (k : Nat) : List (Nat × β) :=
  l.filter (fun p => p.1 != k)

/-- Scheduler state (struct scheduler of scheduler.go). The registries
hold the descriptor records; jobsToSchedule is modelled by its key set
(its Go values are pointers to the very JobDescriptors owned by the job
registry, so only key membership carries independent state); the
resourceRoots map keyed by pointer is modelled as a list of nodes. The gm
and solver fields are external collaborators and are not state. -/
structure SchedulerState where
  resourceMap : List (ResourceID × ResourceStatus)
  jobMap : List (JobID × JobDescriptor)
  taskMap : List (TaskID × TaskDescriptor)
  taskBindings : List (TaskID × ResourceID)
  jobsToSchedule : List JobID
  runnableTasks : List (JobID × List TaskID)
  resourceRoots : List ResourceTopologyNodeDescriptor

/-- AddJob (scheduler.go line 43): insert the job, keyed by the id derived
from its UUID, into the pending-work set (a Go map insert: already-present
keys are not duplicated). -/
def AddJob (s : SchedulerState) (jd : JobDescriptor) : SchedulerState :=
  if s.jobsToSchedule.contains jd.uuid then s
  else { s with jobsToSchedule := jd.uuid :: s.jobsToSchedule }

/-- Result of HandleJobCompletion: the trace of Graph Manager calls made,
the scheduler state as of return or as of the abort point, and the crash
raised, if any. -/
structure CompletionResult where
  gmCalls : List GMCall
  state : SchedulerState
  crash : Option Crash

/-- HandleJobCompletion (scheduler.go lines 48-59): first informs the
Graph Manager via gm.JobCompleted, then looks the job up with
FindPtrOrNull and aborts via log.Panicf when the lookup is nil; otherwise
deletes the job from jobsToSchedule and runnableTasks and writes Completed
into the shared job descriptor. -/
def HandleJobCompletion (s : SchedulerState) (jobID : JobID) :
    CompletionResult :=
  let calls := [GMCall.jobCompleted jobID]
  match FindPtrOrNull s.jobMap jobID with
  | none => ⟨calls, s, some Crash.panicJobMustExist⟩
  | some jd =>
      ⟨calls,
        { s with
          jobsToSchedule := s.jobsToSchedule.filter (fun j => j != jobID)
          runnableTasks := mapErase s.runnableTasks jobID
          jobMap := mapUpdate s.jobMap jobID
            { jd with state := JobState.completed } },
        none⟩

/-- RegisterResource (scheduler.go lines 61-78). The source pushes the
supplied node onto a FIFO queue and loops popping nodes, marking a popped
PU schedulable; the loop body never pushes the children of the popped
node, so exactly the supplied node is examined and the returned tree has
at most its root descriptor changed. gm.AddResourceTopology is an
external-collaborator call with no modelled effect. When the node has an
empty parent id it is inserted into the resourceRoots set (a map insert:
inserting a key already present changes nothing). -/
def RegisterResource (s : SchedulerState)
    (rtnd : ResourceTopologyNodeDescriptor) :
    SchedulerState × ResourceTopologyNodeDescriptor :=
  let rtnd' :=
    if rtnd.resourceDesc.type = ResourceType.pu then
      ResourceTopologyNodeDescriptor.mk
        { rtnd.resourceDesc with schedulable := true }
        rtnd.parentId rtnd.children
    else rtnd
  let roots :=
    if rtnd'.parentId = none then
      if s.resourceRoots.contains rtnd' then s.resourceRoots
      else rtnd' :: s.resourceRoots
    else s.resourceRoots
  ({ s with resourceRoots := roots }, rtnd')

/-- Modelled from the spec: the Graph Manager method
NodeBindingToSchedulingDelta (the Graph Manager implementation is not
under src/; scheduler.go only calls it). The spec classifies one
assignment pair against the previous bindings: absent in taskBindings
gives PLACE, present but mapped to a different resource gives MIGRATE,
present and unchanged means no delta is needed, rendered here as an
Option result whose none case contributes nothing to the delta list. -/
def NodeBindingToSchedulingDelta (taskId : TaskID) (resourceId : ResourceID)
    (taskBindings : List (TaskID × ResourceID)) : Option SchedulingDelta :=
  match FindPtrOrNull taskBindings taskId with
  | none => some ⟨SchedulingDelta_PLACE, taskId, resourceId⟩
  | some oldRes =>
      if oldRes = resourceId then none
      else some ⟨SchedulingDelta_MIGRATE, taskId, resourceId⟩

/-- Modelled from the spec: the Graph Manager method
SchedulingDeltasForPreemptedTasks (not under src/). The spec derives
preemption deltas by comparing the new assignment against the resource
registry actual running-task state: each task currently running on a
resource that the new assignment no longer maps to that resource yields a
PREEMPT delta for that task on that resource. -/
def SchedulingDeltasForPreemptedTasks
    (taskMappings : List (TaskID × ResourceID))
    (resourceMap : List (ResourceID × ResourceStatus)) :
    List SchedulingDelta :=
  resourceMap.flatMap (fun p =>
    p.2.descriptor.currentRunningTasks.filterMap (fun t =>
      match FindPtrOrNull taskMappings t with
      | some r =>
          if r = p.1 then none
          else some ⟨SchedulingDelta_PREEMPT, t, p.1⟩
      | none => some ⟨SchedulingDelta_PREEMPT, t, p.1⟩))

/-- Binding deltas of a round (scheduler.go lines 98-103): one call to
NodeBindingToSchedulingDelta per assignment pair, in assignment order,
appending each produced delta. -/
def bindingDeltas (taskMappings : List (TaskID × ResourceID))
    (taskBindings : List (TaskID × ResourceID)) : List SchedulingDelta :=
  taskMappings.filterMap (fun p =>
    NodeBindingToSchedulingDelta p.1 p.2 taskBindings)

/-- Application of one scheduling delta, the loop body of
ApplySchedulingDeltas (scheduler.go lines 117-144): resolve the task (nil
aborts), resolve the resource (nil aborts), then switch on the delta type.
PLACE looks the owning job up and reads jd.State without a nil guard, so
a missing job is a nil dereference abort; a pre-Running job is set to
Running through the shared descriptor (recorded as one transition event)
and the placement counts 1. PREEMPT, MIGRATE and NOOP invoke only the
empty hook stubs or a log line, count 0 and change nothing. Any other
type reaches log.Fatalf. The result carries the new state, the
numScheduled increment and the job transition events performed. -/
def applyDelta (s : SchedulerState) (d : SchedulingDelta) :
    Except Crash (SchedulerState × Nat × List (JobID × JobState × JobState)) :=
  match FindPtrOrNull s.taskMap d.taskId with
  | none => .error Crash.panicNilTask
  | some td =>
      match FindPtrOrNull s.resourceMap d.resourceId with
      | none => .error Crash.panicNilResource
      | some _rs =>
          if d.type = SchedulingDelta_PLACE then
            match FindPtrOrNull s.jobMap td.jobID with
            | none => .error Crash.nilJobDereference
            | some jd =>
                if jd.state ≠ JobState.running then
                  let jd' := { jd with state := JobState.running }
                  .ok ({ s with jobMap := mapUpdate s.jobMap td.jobID jd' },
                    1, [(td.jobID, jd.state, JobState.running)])
                else
                  .ok (s, 1, [])
          else if d.type = SchedulingDelta_PREEMPT then
            .ok (s, 0, [])
          else if d.type = SchedulingDelta_MIGRATE then
            .ok (s, 0, [])
          else if d.type = SchedulingDelta_NOOP then
            .ok (s, 0, [])
          else
            .error Crash.fatalUnknownDeltaType

/-- ApplySchedulingDeltas (scheduler.go lines 115-147): apply the deltas
in list order, threading the state, summing the numScheduled increments
and concatenating the job transition events; the first abort stops the
loop and the process. -/
def ApplySchedulingDeltas (s : SchedulerState) :
    List SchedulingDelta →
    Except Crash (SchedulerState × Nat × List (JobID × JobState × JobState))
  | [] => .ok (s, 0, [])
  | d :: rest =>
      match applyDelta s d with
      | .error c => .error c
      | .ok (s', n, ts) =>
          match ApplySchedulingDeltas s' rest with
          | .error c => .error c
          | .ok (s'', m, ts') => .ok (s'', n + m, ts ++ ts')

/-- RunSchedulingIteration (scheduler.go lines 80-113). The solver output
is passed in as the assignment list (the Solver is an external
collaborator; a list fixes one iteration order of the Go map). The
preemption deltas are computed first, then one binding delta per
assignment pair is appended, then the whole list is applied; the
per-root gm.UpdateResourceTopology calls are external-collaborator calls
with no modelled state effect. Returns the final state, the full delta
list and the placement count. -/
def RunSchedulingIteration (s : SchedulerState)
    (taskMappings : List (TaskID × ResourceID)) :
    Except Crash (SchedulerState × List SchedulingDelta × Nat) :=
  let deltas :=
    SchedulingDeltasForPreemptedTasks taskMappings s.resourceMap ++
      bindingDeltas taskMappings s.taskBindings
  match ApplySchedulingDeltas s deltas with
  | .error c => .error c
  | .ok (s', numScheduled, _) => .ok (s', deltas, numScheduled)

/-! Concrete fixtures used by the end-to-end evaluations, the failing
inputs and the witnesses below. Tasks T1 and T2 carry ids 1 and 2, PUs P1
and P2 carry resource ids 10 and 11, job J1 carries id 100. -/

/-- Fixture: schedulable PU descriptor with the given running tasks. -/
def puDesc (rid : ResourceID) (running : List TaskID) : ResourceDescriptor :=
  ⟨rid, ResourceType.pu, true, running⟩

/-- Fixture: registry state for the end-to-end scenario of the spec, as of
the start of round 1: job J1 is pending with tasks T1 and T2, PUs P1 and
P2 are registered and idle, no task has ever been bound. -/
def round1State : SchedulerState where
  resourceMap := [(10, ⟨puDesc 10 []⟩), (11, ⟨puDesc 11 []⟩)]
  jobMap := [(100, ⟨100, JobState.pending⟩)]
  taskMap := [(1, ⟨1, 100⟩), (2, ⟨2, 100⟩)]
  taskBindings := []
  jobsToSchedule := [100]
  runnableTasks := [(100, [1, 2])]
  resourceRoots := []

/-- Fixture: state for a round in which task 1 currently runs on (and is
bound to) PU 10 and the new assignment gives PU 10 to task 2 instead. -/
def preemptState : SchedulerState where
  resourceMap := [(10, ⟨puDesc 10 [1]⟩)]
  jobMap := [(100, ⟨100, JobState.pending⟩)]
  taskMap := [(1, ⟨1, 100⟩), (2, ⟨2, 100⟩)]
  taskBindings := [(1, 10)]
  jobsToSchedule := [100]
  runnableTasks := [(100, [1, 2])]
  resourceRoots := []

/-- Fixture: state for a round in which bound task 1 is preempted from PU
10 while task 2, currently bound to PU 20, migrates onto PU 10. -/
def migrateState : SchedulerState where
  resourceMap := [(10, ⟨puDesc 10 [1]⟩), (20, ⟨puDesc 20 []⟩)]
  jobMap := [(100, ⟨100, JobState.running⟩)]
  taskMap := [(1, ⟨1, 100⟩), (2, ⟨2, 100⟩)]
  taskBindings := [(1, 10), (2, 20)]
  jobsToSchedule := []
  runnableTasks := [(100, [1, 2])]
  resourceRoots := []

/-- Fixture: state in which task 7 and PU 10 are registered but the job
with id 99 owning task 7 has no Job Registry entry. -/
def orphanState : SchedulerState where
  resourceMap := [(10, ⟨puDesc 10 []⟩)]
  jobMap := []
  taskMap := [(7, ⟨7, 99⟩)]
  taskBindings := []
  jobsToSchedule := []
  runnableTasks := []
  resourceRoots := []

/-- Fixture: a PLACE delta for the orphan task 7 on PU 10. -/
def orphanPlaceDelta : SchedulingDelta := ⟨SchedulingDelta_PLACE, 7, 10⟩

/-- Fixture: PU topology node P1 (resource id 20), not yet schedulable,
child of the machine node with resource id 12. -/
def p1Node : ResourceTopologyNodeDescriptor :=
  .mk ⟨20, ResourceType.pu, false, []⟩ (some 12) []

/-- Fixture: machine topology root M1 (resource id 12, empty parent id)
whose only child is the PU node P1. -/
def m1Node : ResourceTopologyNodeDescriptor :=
  .mk ⟨12, ResourceType.machine, false, []⟩ none [p1Node]

/-! Helper lemmas about the association-list model and the delta
producers. -/

/-- Updating the entry of a present key makes its lookup return the new
value. -/
theorem FindPtrOrNull_mapUpdate_self {β : Type} (l : List (Nat × β))
    (k : Nat) (v₀ v : β) (h : FindPtrOrNull l k = some v₀) :
    FindPtrOrNull (mapUpdate l k v) k = some v := by
  induction l with
  | nil => simp [FindPtrOrNull] at h
  | cons p rest ih =>
      by_cases hk : p.1 = k
      · simp [FindPtrOrNull, mapUpdate, hk]
      · simp only [FindPtrOrNull, if_neg hk] at h
        simp only [mapUpdate, List.map_cons, if_neg hk, FindPtrOrNull,
          if_neg hk]
        exact ih h

/-- Deleting a key makes its lookup return none. -/
theorem FindPtrOrNull_mapErase_self {β : Type} (l : List (Nat × β))
    (k : Nat) : FindPtrOrNull (mapErase l k) k = none := by
  induction l with
  | nil => rfl
  | cons p rest ih =>
      by_cases hk : p.1 = k
      · simpa [mapErase, List.filter_cons, hk] using ih
      · simpa [mapErase, List.filter_cons, hk, FindPtrOrNull] using ih

/-- A key is absent from the key list it was filtered out of. -/
theorem not_mem_filter_ne (l : List Nat) (k : Nat) :
    k ∉ l.filter (fun j => j != k) := by
  intro hmem
  have := (List.mem_filter.mp hmem).2
  simp at this

/-- Every delta produced by the preemption derivation is of PREEMPT
type. -/
theorem preemption_delta_type (m : List (TaskID × ResourceID))
    (rm : List (ResourceID × ResourceStatus)) (d : SchedulingDelta)
    (h : d ∈ SchedulingDeltasForPreemptedTasks m rm) :
    d.type = SchedulingDelta_PREEMPT := by
  unfold SchedulingDeltasForPreemptedTasks at h
  simp only [List.mem_flatMap, List.mem_filterMap] at h
  obtain ⟨p, _, t, _, hmatch⟩ := h
  cases hf : FindPtrOrNull m t with
  | none =>
      simp only [hf] at hmatch
      cases hmatch
      rfl
  | some r =>
      simp only [hf] at hmatch
      by_cases hr : r = p.1
      · rw [if_pos hr] at hmatch
        cases hmatch
      · rw [if_neg hr] at hmatch
        cases hmatch
        rfl

/-- A produced binding delta carries the task id of its pair and is of
PLACE or MIGRATE type. -/
theorem nodeBinding_delta_spec (a : TaskID) (b : ResourceID)
    (tb : List (TaskID × ResourceID)) (d : SchedulingDelta)
    (h : NodeBindingToSchedulingDelta a b tb = some d) :
    d.taskId = a ∧
      (d.type = SchedulingDelta_PLACE ∨ d.type = SchedulingDelta_MIGRATE) := by
  unfold NodeBindingToSchedulingDelta at h
  cases hf : FindPtrOrNull tb a with
  | none =>
      simp only [hf] at h
      cases h
      exact ⟨rfl, Or.inl rfl⟩
  | some oldRes =>
      simp only [hf] at h
      by_cases hr : oldRes = b
      · rw [if_pos hr] at h
        cases h
      · rw [if_neg hr] at h
        cases h
        exact ⟨rfl, Or.inr rfl⟩

/-- Every delta in the binding-diff segment is of PLACE or MIGRATE
type. -/
theorem bindingDeltas_type (m tb : List (TaskID × ResourceID))
    (d : SchedulingDelta) (h : d ∈ bindingDeltas m tb) :
    d.type = SchedulingDelta_PLACE ∨ d.type = SchedulingDelta_MIGRATE := by
  unfold bindingDeltas at h
  simp only [List.mem_filterMap] at h
  obtain ⟨p, _, hnb⟩ := h
  exact (nodeBinding_delta_spec p.1 p.2 tb d hnb).2

/-- A task absent from the assignment keys contributes no delta to the
binding-diff segment. -/
theorem bindingDeltas_filter_not_mem (m tb : List (TaskID × ResourceID))
    (t : TaskID) (h : t ∉ m.map Prod.fst) :
    (bindingDeltas m tb).filter (fun d => d.taskId == t) = [] := by
  induction m with
  | nil => rfl
  | cons p rest ih =>
      have hne : p.1 ≠ t := by
        intro he
        exact h (by simp [he])
      have hrest : t ∉ rest.map Prod.fst := by
        intro hm
        exact h (by simp [hm])
      unfold bindingDeltas at ih ⊢
      rw [List.filterMap_cons]
      cases hnb : NodeBindingToSchedulingDelta p.1 p.2 tb with
      | none => exact ih hrest
      | some d =>
          rw [List.filter_cons]
          have h1 := (nodeBinding_delta_spec p.1 p.2 tb d hnb).1
          simp only [h1, beq_iff_eq, if_neg hne]
          exact ih hrest

/-- For an assignment with no duplicate task keys containing the pair
(t, r), the binding-diff deltas mentioning t are exactly what
NodeBindingToSchedulingDelta produces for that pair. -/
theorem bindingDeltas_filter_eq (m tb : List (TaskID × ResourceID))
    (t : TaskID) (r : ResourceID) (hnodup : (m.map Prod.fst).Nodup)
    (hmem : (t, r) ∈ m) :
    (bindingDeltas m tb).filter (fun d => d.taskId == t) =
      (NodeBindingToSchedulingDelta t r tb).toList := by
  induction m with
  | nil => cases hmem
  | cons p rest ih =>
      rw [List.map_cons] at hnodup
      have hnc := List.nodup_cons.mp hnodup
      rcases List.mem_cons.mp hmem with heq | hrest
      · subst heq
        have hkeys : t ∉ rest.map Prod.fst := hnc.1
        have hrestnil := bindingDeltas_filter_not_mem rest tb t hkeys
        unfold bindingDeltas at hrestnil ⊢
        rw [List.filterMap_cons]
        dsimp only
        cases hnb : NodeBindingToSchedulingDelta t r tb with
        | none => simpa using hrestnil
        | some d =>
            rw [List.filter_cons]
            have h1 := (nodeBinding_delta_spec t r tb d hnb).1
            rw [if_pos (by simp [h1]), hrestnil]
            rfl
      · have hne : p.1 ≠ t := by
          intro he
          have hkey : t ∈ rest.map Prod.fst :=
            List.mem_map_of_mem Prod.fst hrest
          rw [← he] at hkey
          exact hnc.1 hkey
        have htail := ih hnc.2 hrest
        unfold bindingDeltas at htail ⊢
        rw [List.filterMap_cons]
        cases hnb : NodeBindingToSchedulingDelta p.1 p.2 tb with
        | none => exact htail
        | some d =>
            rw [List.filter_cons]
            have h1 := (nodeBinding_delta_spec p.1 p.2 tb d hnb).1
            rw [if_neg (by simp [h1, hne])]
            exact htail

/-- One delta application never writes taskBindings. -/
theorem applyDelta_taskBindings (s s' : SchedulerState) (d : SchedulingDelta)
    (n : Nat) (ts : List (JobID × JobState × JobState))
    (h : applyDelta s d = .ok (s', n, ts)) :
    s'.taskBindings = s.taskBindings := by
  unfold applyDelta at h
  cases htd : FindPtrOrNull s.taskMap d.taskId with
  | none =>
      simp only [htd] at h
      exact Except.noConfusion h
  | some td =>
      simp only [htd] at h
      cases hrs : FindPtrOrNull s.resourceMap d.resourceId with
      | none =>
          simp only [hrs] at h
          exact Except.noConfusion h
      | some rs =>
          simp only [hrs] at h
          by_cases h1 : d.type = SchedulingDelta_PLACE
          · rw [if_pos h1] at h
            cases hjd : FindPtrOrNull s.jobMap td.jobID with
            | none =>
                simp only [hjd] at h
                exact Except.noConfusion h
            | some jd =>
                simp only [hjd] at h
                by_cases h2 : jd.state = JobState.running
                · rw [if_neg (by simpa using h2)] at h
                  cases h
                  rfl
                · rw [if_pos (by simpa using h2)] at h
                  cases h
                  rfl
          · rw [if_neg h1] at h
            by_cases h2 : d.type = SchedulingDelta_PREEMPT
            · rw [if_pos h2] at h
              cases h
              rfl
            · rw [if_neg h2] at h
              by_cases h3 : d.type = SchedulingDelta_MIGRATE
              · rw [if_pos h3] at h
                cases h
                rfl
              · rw [if_neg h3] at h
                by_cases h4 : d.type = SchedulingDelta_NOOP
                · rw [if_pos h4] at h
                  cases h
                  rfl
                · rw [if_neg h4] at h
                  exact Except.noConfusion h

/-- Applying a whole delta list never writes taskBindings. -/
theorem ApplySchedulingDeltas_taskBindings (deltas : List SchedulingDelta) :
    ∀ s s' n ts, ApplySchedulingDeltas s deltas = .ok (s', n, ts) →
      s'.taskBindings = s.taskBindings := by
  induction deltas with
  | nil =>
      intro s s' n ts h
      cases h
      rfl
  | cons d rest ih =>
      intro s s' n ts h
      unfold ApplySchedulingDeltas at h
      cases hd : applyDelta s d with
      | error c =>
          simp only [hd] at h
          exact Except.noConfusion h
      | ok r =>
          obtain ⟨s₁, n₁, ts₁⟩ := r
          simp only [hd] at h
          cases hr : ApplySchedulingDeltas s₁ rest with
          | error c =>
              simp only [hr] at h
              exact Except.noConfusion h
          | ok r₂ =>
              obtain ⟨s₂, n₂, ts₂⟩ := r₂
              simp only [hr] at h
              cases h
              rw [ih _ _ _ _ hr, applyDelta_taskBindings _ _ _ _ _ hd]

/-- One successfully applied delta contributes 1 to numScheduled exactly
when it is a PLACE delta. -/
theorem applyDelta_numScheduled (s s' : SchedulerState) (d : SchedulingDelta)
    (n : Nat) (ts : List (JobID × JobState × JobState))
    (h : applyDelta s d = .ok (s', n, ts)) :
    n = if d.type = SchedulingDelta_PLACE then 1 else 0 := by
  unfold applyDelta at h
  cases htd : FindPtrOrNull s.taskMap d.taskId with
  | none =>
      simp only [htd] at h
      exact Except.noConfusion h
  | some td =>
      simp only [htd] at h
      cases hrs : FindPtrOrNull s.resourceMap d.resourceId with
      | none =>
          simp only [hrs] at h
          exact Except.noConfusion h
      | some rs =>
          simp only [hrs] at h
          by_cases h1 : d.type = SchedulingDelta_PLACE
          · rw [if_pos h1] at h
            rw [if_pos h1]
            cases hjd : FindPtrOrNull s.jobMap td.jobID with
            | none =>
                simp only [hjd] at h
                exact Except.noConfusion h
            | some jd =>
                simp only [hjd] at h
                by_cases h2 : jd.state = JobState.running
                · rw [if_neg (by simpa using h2)] at h
                  cases h
                  rfl
                · rw [if_pos (by simpa using h2)] at h
                  cases h
                  rfl
          · rw [if_neg h1] at h
            rw [if_neg h1]
            by_cases h2 : d.type = SchedulingDelta_PREEMPT
            · rw [if_pos h2] at h
              cases h
              rfl
            · rw [if_neg h2] at h
              by_cases h3 : d.type = SchedulingDelta_MIGRATE
              · rw [if_pos h3] at h
                cases h
                rfl
              · rw [if_neg h3] at h
                by_cases h4 : d.type = SchedulingDelta_NOOP
                · rw [if_pos h4] at h
                  cases h
                  rfl
                · rw [if_neg h4] at h
                  exact Except.noConfusion h

/-- The numScheduled result of a successful delta application is the
number of PLACE deltas in the applied list. -/
theorem ApplySchedulingDeltas_count (deltas : List SchedulingDelta) :
    ∀ s s' n ts, ApplySchedulingDeltas s deltas = .ok (s', n, ts) →
      n = deltas.countP (fun d => d.type = SchedulingDelta_PLACE) := by
  induction deltas with
  | nil =>
      intro s s' n ts h
      cases h
      rfl
  | cons d rest ih =>
      intro s s' n ts h
      unfold ApplySchedulingDeltas at h
      cases hd : applyDelta s d with
      | error c =>
          simp only [hd] at h
          exact Except.noConfusion h
      | ok r =>
          obtain ⟨s₁, n₁, ts₁⟩ := r
          simp only [hd] at h
          cases hr : ApplySchedulingDeltas s₁ rest with
          | error c =>
              simp only [hr] at h
              exact Except.noConfusion h
          | ok r₂ =>
              obtain ⟨s₂, n₂, ts₂⟩ := r₂
              simp only [hr] at h
              cases h
              rw [List.countP_cons, ih _ _ _ _ hr,
                applyDelta_numScheduled _ _ _ _ _ hd]
              by_cases hp : d.type = SchedulingDelta_PLACE
              · simp [hp, Nat.add_comm]
              · simp [hp]

/-! Claim theorems. -/

/-- C5: for every delta list, the integer returned by
RunSchedulingIteration (computed by ApplySchedulingDeltas) equals exactly
the number of deltas of type PLACE in the returned list, independent of
how many PREEMPT, MIGRATE or NOOP deltas the list also contains. -/
theorem C5_round_place_count (s s' : SchedulerState)
    (m : List (TaskID × ResourceID)) (ds : List SchedulingDelta) (n : Nat)
    (h : RunSchedulingIteration s m = .ok (s', ds, n)) :
    n = ds.countP (fun d => d.type = SchedulingDelta_PLACE) := by
  unfold RunSchedulingIteration at h
  cases happ : ApplySchedulingDeltas s
      (SchedulingDeltasForPreemptedTasks m s.resourceMap ++
        bindingDeltas m s.taskBindings) with
  | error c =>
      simp only [happ] at h
      exact Except.noConfusion h
  | ok r =>
      obtain ⟨s₁, n₁, ts₁⟩ := r
      simp only [happ] at h
      cases h
      exact ApplySchedulingDeltas_count _ _ _ _ _ happ

/-- Witness for C5: the round 1 end-to-end scenario returns numPlaced 2
and a delta list whose PLACE count is 2. -/
theorem C5_round_place_count_witness :
    2 = ([⟨SchedulingDelta_PLACE, 1, 10⟩, ⟨SchedulingDelta_PLACE, 2, 11⟩] :
        List SchedulingDelta).countP
      (fun d => d.type = SchedulingDelta_PLACE) :=
  C5_round_place_count round1State
    { round1State with jobMap := [(100, ⟨100, JobState.running⟩)] }
    [(1, 10), (2, 11)]
    [⟨SchedulingDelta_PLACE, 1, 10⟩, ⟨SchedulingDelta_PLACE, 2, 11⟩] 2 rfl

/-- C3: in the delta list returned (and applied) by
RunSchedulingIteration, every preemption delta precedes every placement
or migration binding delta in list order: a PREEMPT delta at index i and
a PLACE or MIGRATE delta at index j satisfy i < j. -/
theorem C3_preempt_before_place (s s' : SchedulerState)
    (m : List (TaskID × ResourceID)) (ds : List SchedulingDelta)
    (n i j : Nat)
    (hrun : RunSchedulingIteration s m = .ok (s', ds, n))
    (hi : i < ds.length) (hj : j < ds.length)
    (hpre : (ds.get ⟨i, hi⟩).type = SchedulingDelta_PREEMPT)
    (hpl : (ds.get ⟨j, hj⟩).type = SchedulingDelta_PLACE ∨
      (ds.get ⟨j, hj⟩).type = SchedulingDelta_MIGRATE) :
    i < j := by
  have hds : ds =
      SchedulingDeltasForPreemptedTasks m s.resourceMap ++
        bindingDeltas m s.taskBindings := by
    unfold RunSchedulingIteration at hrun
    cases happ : ApplySchedulingDeltas s
        (SchedulingDeltasForPreemptedTasks m s.resourceMap ++
          bindingDeltas m s.taskBindings) with
    | error c =>
        simp only [happ] at hrun
        exact Except.noConfusion hrun
    | ok r =>
        obtain ⟨s₁, n₁, ts₁⟩ := r
        simp only [happ] at hrun
        cases hrun
        rfl
  subst hds
  have hiP : i < (SchedulingDeltasForPreemptedTasks m s.resourceMap).length := by
    rcases Nat.lt_or_ge i
        (SchedulingDeltasForPreemptedTasks m s.resourceMap).length with
      hlt | hge
    · exact hlt
    · exfalso
      rw [List.get_eq_getElem, List.getElem_append_right hge] at hpre
      have hmem := List.getElem_mem
        (l := bindingDeltas m s.taskBindings)
        (n := i - (SchedulingDeltasForPreemptedTasks m s.resourceMap).length)
        (by
          rw [List.length_append] at hi
          exact Nat.sub_lt_left_of_lt_add hge hi)
      rcases bindingDeltas_type m s.taskBindings _ hmem with hty | hty <;>
        rw [hpre] at hty <;> simp [SchedulingDelta_PREEMPT,
          SchedulingDelta_PLACE, SchedulingDelta_MIGRATE] at hty
  have hjP : (SchedulingDeltasForPreemptedTasks m s.resourceMap).length ≤ j := by
    rcases Nat.lt_or_ge j
        (SchedulingDeltasForPreemptedTasks m s.resourceMap).length with
      hlt | hge
    · exfalso
      rw [List.get_eq_getElem, List.getElem_append_left hlt] at hpl
      have hmem := List.getElem_mem
        (l := SchedulingDeltasForPreemptedTasks m s.resourceMap)
        (n := j) hlt
      have hty := preemption_delta_type m s.resourceMap _ hmem
      rcases hpl with hpl | hpl <;> rw [hpl] at hty <;>
        simp [SchedulingDelta_PREEMPT, SchedulingDelta_PLACE,
          SchedulingDelta_MIGRATE] at hty
    · exact hge
  exact Nat.lt_of_lt_of_le hiP hjP

/-- Witness for C3: in a round where bound task 1 is preempted from PU 10
and task 2 is placed onto it, the PREEMPT delta at index 0 precedes the
PLACE delta at index 1; in a round where task 2 instead migrates from PU
20 onto PU 10, the PREEMPT delta at index 0 precedes the MIGRATE delta
at index 1. -/
theorem C3_preempt_before_place_witness : (0 : Nat) < 1 ∧ (0 : Nat) < 1 :=
  ⟨C3_preempt_before_place preemptState
      { preemptState with jobMap := [(100, ⟨100, JobState.running⟩)] }
      [(2, 10)]
      [⟨SchedulingDelta_PREEMPT, 1, 10⟩, ⟨SchedulingDelta_PLACE, 2, 10⟩]
      1 0 1 rfl (by decide) (by decide) rfl (Or.inl rfl),
    C3_preempt_before_place migrateState migrateState [(2, 10)]
      [⟨SchedulingDelta_PREEMPT, 1, 10⟩, ⟨SchedulingDelta_MIGRATE, 2, 10⟩]
      0 0 1 rfl (by decide) (by decide) rfl (Or.inr rfl)⟩

/-- C4: per-pair binding diff of a round: a pair (t, r) already bound to r
contributes no delta, a pair bound to a different resource contributes
exactly one MIGRATE delta (t, r), and a pair whose task t is unbound
contributes exactly one PLACE delta (t, r) to the binding-diff segment of
the round delta list. -/
theorem C4_binding_diff (m tb : List (TaskID × ResourceID)) (t : TaskID)
    (r : ResourceID) (hnodup : (m.map Prod.fst).Nodup) (hmem : (t, r) ∈ m) :
    (FindPtrOrNull tb t = some r →
      (bindingDeltas m tb).filter (fun d => d.taskId == t) = []) ∧
    (∀ r₁, FindPtrOrNull tb t = some r₁ → r₁ ≠ r →
      (bindingDeltas m tb).filter (fun d => d.taskId == t) =
        [⟨SchedulingDelta_MIGRATE, t, r⟩]) ∧
    (FindPtrOrNull tb t = none →
      (bindingDeltas m tb).filter (fun d => d.taskId == t) =
        [⟨SchedulingDelta_PLACE, t, r⟩]) := by
  have hkey := bindingDeltas_filter_eq m tb t r hnodup hmem
  refine ⟨?_, ?_, ?_⟩
  · intro h
    rw [hkey]
    unfold NodeBindingToSchedulingDelta
    simp [h]
  · intro r₁ h hne
    rw [hkey]
    unfold NodeBindingToSchedulingDelta
    simp only [h]
    rw [if_neg hne]
    rfl
  · intro h
    rw [hkey]
    unfold NodeBindingToSchedulingDelta
    simp only [h]
    rfl

/-- Witness for C4: with the single-pair assignment (1, 10), previous
bindings {1 to 10} yield no delta, {1 to 11} yield one MIGRATE (1, 10),
and empty bindings yield one PLACE (1, 10). -/
theorem C4_binding_diff_witness :
    (bindingDeltas [(1, 10)] [(1, 10)]).filter (fun d => d.taskId == 1) =
      [] ∧
    (bindingDeltas [(1, 10)] [(1, 11)]).filter (fun d => d.taskId == 1) =
      [⟨SchedulingDelta_MIGRATE, 1, 10⟩] ∧
    (bindingDeltas [(1, 10)] []).filter (fun d => d.taskId == 1) =
      [⟨SchedulingDelta_PLACE, 1, 10⟩] :=
  ⟨(C4_binding_diff [(1, 10)] [(1, 10)] 1 10 (by decide) (by decide)).1 rfl,
    (C4_binding_diff [(1, 10)] [(1, 11)] 1 10 (by decide)
      (by decide)).2.1 11 rfl (by decide),
    (C4_binding_diff [(1, 10)] [] 1 10 (by decide) (by decide)).2.2 rfl⟩

/-- C6: applying a PLACE delta whose owning job is present in the Job
Registry: a job whose state is not Running beforehand is Running
afterwards (the registry entry is updated through the shared descriptor,
with exactly one transition event); a job already Running is left
unchanged with no redundant transition event. -/
theorem C6_place_activates_job (s : SchedulerState) (d : SchedulingDelta)
    (td : TaskDescriptor) (rs : ResourceStatus) (jd : JobDescriptor)
    (htype : d.type = SchedulingDelta_PLACE)
    (htd : FindPtrOrNull s.taskMap d.taskId = some td)
    (hrs : FindPtrOrNull s.resourceMap d.resourceId = some rs)
    (hjd : FindPtrOrNull s.jobMap td.jobID = some jd) :
    (jd.state ≠ JobState.running →
      applyDelta s d = .ok
        ({ s with jobMap := mapUpdate s.jobMap td.jobID { jd with state := JobState.running } },
          1, [(td.jobID, jd.state, JobState.running)]) ∧
      FindPtrOrNull
          (mapUpdate s.jobMap td.jobID { jd with state := JobState.running })
          td.jobID = some { jd with state := JobState.running }) ∧
    (jd.state = JobState.running → applyDelta s d = .ok (s, 1, [])) := by
  constructor
  · intro hne
    constructor
    · unfold applyDelta
      simp only [htd, hrs]
      rw [if_pos htype]
      simp only [hjd]
      rw [if_pos hne]
    · exact FindPtrOrNull_mapUpdate_self _ _ _ _ hjd
  · intro he
    unfold applyDelta
    simp only [htd, hrs]
    rw [if_pos htype]
    simp only [hjd]
    rw [if_neg (not_not_intro he)]

/-- Witness for C6: placing task 1 of pending job 100 activates the job;
placing it again when the job is already running changes nothing. -/
theorem C6_place_activates_job_witness :
    applyDelta round1State ⟨SchedulingDelta_PLACE, 1, 10⟩ =
      .ok ({ round1State with jobMap := mapUpdate round1State.jobMap 100 ⟨100, JobState.running⟩ },
        1, [(100, JobState.pending, JobState.running)]) ∧
    applyDelta
        { round1State with jobMap := [(100, ⟨100, JobState.running⟩)] }
        ⟨SchedulingDelta_PLACE, 1, 10⟩ =
      .ok ({ round1State with jobMap := [(100, ⟨100, JobState.running⟩)] },
        1, []) :=
  ⟨((C6_place_activates_job round1State ⟨SchedulingDelta_PLACE, 1, 10⟩
      ⟨1, 100⟩ ⟨puDesc 10 []⟩ ⟨100, JobState.pending⟩ rfl rfl rfl rfl).1
      (by decide)).1,
    (C6_place_activates_job
      { round1State with jobMap := [(100, ⟨100, JobState.running⟩)] }
      ⟨SchedulingDelta_PLACE, 1, 10⟩ ⟨1, 100⟩ ⟨puDesc 10 []⟩
      ⟨100, JobState.running⟩ rfl rfl rfl rfl).2 rfl⟩

/-- C7: HandleJobCompletion panics exactly when the Job Registry has no
record for the job id; when the registry does contain it, the call
removes the job from both pending-work sets and sets the job descriptor
state to Completed. -/
theorem C7_job_completion (s : SchedulerState) (jobID : JobID) :
    ((HandleJobCompletion s jobID).crash = some Crash.panicJobMustExist ↔
      FindPtrOrNull s.jobMap jobID = none) ∧
    (∀ jd, FindPtrOrNull s.jobMap jobID = some jd →
      (HandleJobCompletion s jobID).crash = none ∧
      jobID ∉ (HandleJobCompletion s jobID).state.jobsToSchedule ∧
      FindPtrOrNull (HandleJobCompletion s jobID).state.runnableTasks
        jobID = none ∧
      FindPtrOrNull (HandleJobCompletion s jobID).state.jobMap jobID =
        some { jd with state := JobState.completed }) := by
  cases hjd : FindPtrOrNull s.jobMap jobID with
  | none =>
      constructor
      · simp [HandleJobCompletion, hjd]
      · intro jd h
        exact Option.noConfusion h
  | some jd₀ =>
      constructor
      · simp [HandleJobCompletion, hjd]
      · intro jd h
        cases h
        refine ⟨?_, ?_, ?_, ?_⟩
        · simp [HandleJobCompletion, hjd]
        · simp only [HandleJobCompletion, hjd]
          exact not_mem_filter_ne s.jobsToSchedule jobID
        · simp only [HandleJobCompletion, hjd]
          exact FindPtrOrNull_mapErase_self s.runnableTasks jobID
        · simp only [HandleJobCompletion, hjd]
          exact FindPtrOrNull_mapUpdate_self s.jobMap jobID jd₀ _ hjd

/-- Witness for C7: completing the registered job 100 succeeds, removes it
from both pending-work sets and records Completed; completing the unknown
job 999 panics. -/
theorem C7_job_completion_witness :
    (HandleJobCompletion round1State 100).crash = none ∧
    100 ∉ (HandleJobCompletion round1State 100).state.jobsToSchedule ∧
    FindPtrOrNull (HandleJobCompletion round1State 100).state.runnableTasks
      100 = none ∧
    FindPtrOrNull (HandleJobCompletion round1State 100).state.jobMap 100 =
      some ⟨100, JobState.completed⟩ ∧
    (HandleJobCompletion round1State 999).crash =
      some Crash.panicJobMustExist :=
  ⟨((C7_job_completion round1State 100).2 ⟨100, JobState.pending⟩ rfl).1,
    ((C7_job_completion round1State 100).2 ⟨100, JobState.pending⟩ rfl).2.1,
    ((C7_job_completion round1State 100).2 ⟨100, JobState.pending⟩
      rfl).2.2.1,
    ((C7_job_completion round1State 100).2 ⟨100, JobState.pending⟩
      rfl).2.2.2,
    (C7_job_completion round1State 999).1.mpr rfl⟩

/-- C10: on the failing path of HandleJobCompletion the Graph Manager has
already been told JobCompleted before the registry check, while the
pending-work sets and all job descriptors are left unchanged alongside
the panic. -/
theorem C10_gm_call_precedes_check (s : SchedulerState) (jobID : JobID)
    (h : FindPtrOrNull s.jobMap jobID = none) :
    HandleJobCompletion s jobID =
      ⟨[GMCall.jobCompleted jobID], s, some Crash.panicJobMustExist⟩ := by
  simp [HandleJobCompletion, h]

/-- Witness for C10: completing the unknown job 999 records the Graph
Manager call, leaves the state untouched and panics. -/
theorem C10_gm_call_precedes_check_witness :
    HandleJobCompletion round1State 999 =
      ⟨[GMCall.jobCompleted 999], round1State,
        some Crash.panicJobMustExist⟩ :=
  C10_gm_call_precedes_check round1State 999 rfl

/-- C9: a PLACE delta whose task and resource both resolve but whose
owning job id is absent from the Job Registry aborts through the
unguarded nil dereference of the job lookup result, not through one of
the guarded fatal paths of the delta switch. -/
theorem C9_place_nil_job_deref (s : SchedulerState) (d : SchedulingDelta)
    (td : TaskDescriptor) (rs : ResourceStatus)
    (htype : d.type = SchedulingDelta_PLACE)
    (htd : FindPtrOrNull s.taskMap d.taskId = some td)
    (hrs : FindPtrOrNull s.resourceMap d.resourceId = some rs)
    (hjd : FindPtrOrNull s.jobMap td.jobID = none) :
    applyDelta s d = .error Crash.nilJobDereference := by
  unfold applyDelta
  simp only [htd, hrs]
  rw [if_pos htype]
  simp only [hjd]

/-- Witness for C9: placing orphan task 7 (job 99 unregistered) on PU 10
aborts with the nil job dereference. -/
theorem C9_place_nil_job_deref_witness :
    applyDelta orphanState orphanPlaceDelta =
      .error Crash.nilJobDereference :=
  C9_place_nil_job_deref orphanState orphanPlaceDelta ⟨7, 99⟩
    ⟨puDesc 10 []⟩ rfl rfl rfl rfl

/-- C8 counterexample: the PLACE delta for orphan task 7 on PU 10 resolves
both its task and its resource and carries a recognised type, yet
ApplySchedulingDeltas halts fatally on it (via the nil job dereference)
instead of applying it without any fatal halt. -/
theorem C8_counterexample_place_orphan_job :
    (FindPtrOrNull orphanState.taskMap orphanPlaceDelta.taskId).isSome =
      true ∧
    (FindPtrOrNull orphanState.resourceMap
      orphanPlaceDelta.resourceId).isSome = true ∧
    orphanPlaceDelta.type = SchedulingDelta_PLACE ∧
    ApplySchedulingDeltas orphanState [orphanPlaceDelta] =
      .error Crash.nilJobDereference :=
  ⟨rfl, rfl, rfl, rfl⟩

/-- C8 (amended): for every delta processed by ApplySchedulingDeltas, a
missing task entry, a missing resource entry, or an unrecognised type
halts the application fatally rather than skipping the delta or
recovering (an abort in the loop body aborts the whole run); a delta
whose task and resource both resolve, whose type is recognised and which,
when of PLACE type, also has its owning job present in the Job Registry,
is applied without any fatal halt. -/
theorem C8_guarded_fatal_amended (s : SchedulerState)
    (d : SchedulingDelta) :
    (FindPtrOrNull s.taskMap d.taskId = none →
      applyDelta s d = .error Crash.panicNilTask) ∧
    (∀ td, FindPtrOrNull s.taskMap d.taskId = some td →
      FindPtrOrNull s.resourceMap d.resourceId = none →
      applyDelta s d = .error Crash.panicNilResource) ∧
    (∀ td rs, FindPtrOrNull s.taskMap d.taskId = some td →
      FindPtrOrNull s.resourceMap d.resourceId = some rs →
      d.type ≠ SchedulingDelta_PLACE → d.type ≠ SchedulingDelta_PREEMPT →
      d.type ≠ SchedulingDelta_MIGRATE → d.type ≠ SchedulingDelta_NOOP →
      applyDelta s d = .error Crash.fatalUnknownDeltaType) ∧
    (∀ c rest, applyDelta s d = .error c →
      ApplySchedulingDeltas s (d :: rest) = .error c) ∧
    (∀ td rs, FindPtrOrNull s.taskMap d.taskId = some td →
      FindPtrOrNull s.resourceMap d.resourceId = some rs →
      (d.type = SchedulingDelta_PREEMPT ∨
        d.type = SchedulingDelta_MIGRATE ∨
        d.type = SchedulingDelta_NOOP ∨
        (d.type = SchedulingDelta_PLACE ∧
          (FindPtrOrNull s.jobMap td.jobID).isSome = true)) →
      (applyDelta s d).isOk = true) := by
  refine ⟨?_, ?_, ?_, ?_, ?_⟩
  · intro h
    unfold applyDelta
    simp only [h]
  · intro td htd hrs
    unfold applyDelta
    simp only [htd, hrs]
  · intro td rs htd hrs h1 h2 h3 h4
    unfold applyDelta
    simp only [htd, hrs]
    rw [if_neg h1, if_neg h2, if_neg h3, if_neg h4]
  · intro c rest h
    unfold ApplySchedulingDeltas
    simp only [h]
  · intro td rs htd hrs hcase
    unfold applyDelta
    simp only [htd, hrs]
    rcases hcase with h | h | h | ⟨hpl, hjob⟩
    · rw [if_neg (by rw [h]; decide), if_pos h]
      rfl
    · rw [if_neg (by rw [h]; decide), if_neg (by rw [h]; decide),
        if_pos h]
      rfl
    · rw [if_neg (by rw [h]; decide), if_neg (by rw [h]; decide),
        if_neg (by rw [h]; decide), if_pos h]
      rfl
    · rw [if_pos hpl]
      cases hjd : FindPtrOrNull s.jobMap td.jobID with
      | none =>
          rw [hjd] at hjob
          exact absurd hjob (by decide)
      | some jd =>
          simp only [hjd]
          by_cases h2 : jd.state = JobState.running
          · rw [if_neg (not_not_intro h2)]
            rfl
          · rw [if_pos h2]
            rfl

/-- Witness for the amended C8: a missing task, a missing resource and an
unknown type 7 each halt fatally; the halt propagates out of the list
application; a NOOP delta with both entities present applies without any
fatal halt. -/
theorem C8_guarded_fatal_amended_witness :
    applyDelta round1State ⟨SchedulingDelta_PLACE, 999, 10⟩ =
      .error Crash.panicNilTask ∧
    applyDelta round1State ⟨SchedulingDelta_PLACE, 1, 999⟩ =
      .error Crash.panicNilResource ∧
    applyDelta round1State ⟨7, 1, 10⟩ =
      .error Crash.fatalUnknownDeltaType ∧
    ApplySchedulingDeltas round1State [⟨SchedulingDelta_PLACE, 999, 10⟩] =
      .error Crash.panicNilTask ∧
    (applyDelta round1State ⟨SchedulingDelta_NOOP, 1, 10⟩).isOk = true :=
  ⟨(C8_guarded_fatal_amended round1State
      ⟨SchedulingDelta_PLACE, 999, 10⟩).1 rfl,
    (C8_guarded_fatal_amended round1State
      ⟨SchedulingDelta_PLACE, 1, 999⟩).2.1 ⟨1, 100⟩ rfl rfl,
    (C8_guarded_fatal_amended round1State ⟨7, 1, 10⟩).2.2.1 ⟨1, 100⟩
      ⟨puDesc 10 []⟩ rfl rfl (by decide) (by decide) (by decide)
      (by decide),
    (C8_guarded_fatal_amended round1State
      ⟨SchedulingDelta_PLACE, 999, 10⟩).2.2.2.1 Crash.panicNilTask []
      ((C8_guarded_fatal_amended round1State
        ⟨SchedulingDelta_PLACE, 999, 10⟩).1 rfl),
    (C8_guarded_fatal_amended round1State
      ⟨SchedulingDelta_NOOP, 1, 10⟩).2.2.2.2 ⟨1, 100⟩ ⟨puDesc 10 []⟩
      rfl rfl (Or.inr (Or.inr (Or.inl rfl)))⟩

/-- C1: evaluation of the code at the failing input of the claim: round 1
of the end-to-end scenario succeeds with two PLACE deltas and numPlaced
2, yet taskBindings after the round is still empty instead of binding T1
to P1 and T2 to P2 — no statement of scheduler.go ever writes
taskBindings (the placement and migration hooks are empty stubs), as the
preservation lemma ApplySchedulingDeltas_taskBindings records in
general. -/
theorem C1_round_leaves_taskBindings_empty :
    RunSchedulingIteration round1State [(1, 10), (2, 11)] =
      .ok ({ round1State with jobMap := [(100, ⟨100, JobState.running⟩)] },
        [⟨SchedulingDelta_PLACE, 1, 10⟩, ⟨SchedulingDelta_PLACE, 2, 11⟩],
        2) ∧
    ({ round1State with jobMap := [(100, ⟨100, JobState.running⟩)] } :
      SchedulerState).taskBindings = [] :=
  ⟨rfl, rfl⟩

/-- C2: evaluation of the code at the failing input of the claim:
registering machine root M1 whose only child is the not-yet-schedulable
PU P1 returns the subtree unchanged, so the descendant PU still has
schedulable = false after the call — the traversal loop of
RegisterResource never enqueues the children of the popped node. The
root is still added to the known-roots set. -/
theorem C2_register_resource_child_pu_unmarked :
    (RegisterResource round1State m1Node).2 = m1Node ∧
    (RegisterResource round1State m1Node).2.children.map
      (fun c => c.resourceDesc.schedulable) = [false] ∧
    (RegisterResource round1State m1Node).1.resourceRoots = [m1Node] :=
  ⟨rfl, rfl, rfl⟩

end Ksched
